import Mathlib

/-!
Verification of FocaBotCore (Azarasi) against its specification.

Shallow embedding of the relevant parts of `src/module.ts` (the `Module`
event/command registration APIs and the `CouchDataStore` backend) and of
`src/index.js` (`Azarasi.processMessage`), together with theorems settling
the spec claims about them.
-/

namespace Azarasi

/-! ## JavaScript array primitives

`Array.prototype.indexOf(x, fromIndex)` and `Array.prototype.splice(start)`
(with the delete-count argument omitted), as used by
`CouchDataStore.subscribe`'s `off` closure:
`this.subscriptions.splice(this.subscriptions.indexOf(sub, 1))`.
-/

/-- Helper for `jsIndexOfFrom`: first index `≥ i` (passed as accumulator)
whose element equals `a`, or `-1`. -/
def jsIndexOfAux {α : Type} [DecidableEq α] (l : List α) (a : α) (i : Nat) : Int :=
  match l with
  | [] => -1
  | x :: xs => if x = a then (i : Int) else jsIndexOfAux xs a (i + 1)

/-- JS `arr.indexOf(a, fromIdx)`: index of the first occurrence of `a` at
position `fromIdx` or later, `-1` when there is none. -/
def jsIndexOfFrom {α : Type} [DecidableEq α] (l : List α) (a : α) (fromIdx : Nat) : Int :=
  jsIndexOfAux (l.drop fromIdx) a fromIdx

/-- JS `arr.splice(start)` with the delete-count omitted: removes every
element from the (clamped, possibly negative) start index to the end.
Returns the array as left after the mutation. -/
def jsSpliceAllFrom {α : Type} (l : List α) (start : Int) : List α :=
  let len : Int := l.length
  let actual : Int := if start < 0 then max (len + start) 0 else min start len
  l.take actual.toNat

/-! ## Handlers and data subscriptions

Handlers are identified by a `Nat` id. `registerEvent` wraps the user's
handler in a guild-disablement guard before attaching it; `AttachedHandler`
records which of the two function objects (the raw user handler or its
guard wrapper) was actually attached to an event source. -/

/-- A function object attached to an event source: either the user's raw
handler or the guard wrapper built around it by `Module.registerEvent`. -/
inductive AttachedHandler where
  | raw (h : Nat)
  | wrapped (h : Nat)
deriving DecidableEq, Repr

/-- The user handler id behind an attached function object. -/
def AttachedHandler.userId : AttachedHandler → Nat
  | .raw h => h
  | .wrapped h => h

/-- `DataSubscription` from `src/dataStores`: a key, the handler passed to
`subscribe`, and an allocation id `sid` modelling JS object identity (each
`subscribe` call creates a distinct object; `indexOf` compares by `===`). -/
structure DataSubscription where
  key : String
  handler : AttachedHandler
  sid : Nat
deriving DecidableEq, Repr

/-- `CouchDataStore.subscribe(key, handler)`: creates the subscription and
pushes it onto the fan-out table; `sid` is the fresh identity of the new
object. Returns the subscription and the updated table. -/
def couchSubscribe (subs : List DataSubscription) (key : String)
    (handler : AttachedHandler) (sid : Nat) : DataSubscription × List DataSubscription :=
  let sub : DataSubscription := ⟨key, handler, sid⟩
  (sub, subs ++ [sub])

/-- The `off` closure installed by `CouchDataStore.subscribe`:
`this.subscriptions.splice(this.subscriptions.indexOf(sub, 1))` — note the
`1` is passed to `indexOf` as the from-index and `splice` gets no
delete-count. Returns the fan-out table after the mutation. -/
def subOff (sub : DataSubscription) (subs : List DataSubscription) : List DataSubscription :=
  jsSpliceAllFrom subs (jsIndexOfFrom subs sub 1)

/-- The change-feed listener installed by `CouchDataStore.connect`: on a
change to document `docId`, every subscription whose key equals `docId` has
its handler invoked (with `doc.val`). Returns the handlers invoked, in
table order. -/
def changeFanout (subs : List DataSubscription) (docId : String) : List AttachedHandler :=
  (subs.filter (fun s => s.key = docId)).map (fun s => s.handler)

/-! ## Claims C1 and C6: subscription cancellation -/

/-- Claim C1: after `off()` on a `DataSubscription` returns, the handler is
never invoked again for change-feed events on its key. REFUTED by the code:
`off` runs `splice(indexOf(sub, 1))`, so when the cancelled subscription
sits at index 0 of a table with a second entry, `indexOf(sub, 1)` is `-1`
and `splice(-1)` drops the last entry instead; the cancelled subscription
stays in the table and its handler still fires on the next change to its
key. -/
theorem couch_off_not_cancelling :
    subOff (couchSubscribe [] "guildData" (.raw 1) 0).1
        (couchSubscribe (couchSubscribe [] "guildData" (.raw 1) 0).2 "other" (.raw 2) 1).2
      = [⟨"guildData", .raw 1, 0⟩] ∧
    changeFanout [⟨"guildData", .raw 1, 0⟩] "guildData" = [.raw 1] := by
  decide

/-- Claim C6: `off()` removes at most the one cancelled subscription and
every other subscription keeps firing. REFUTED by the code: with three
subscriptions, `off` on the middle one runs `splice(1)` with no
delete-count, which also drops the third, untouched subscription, whose
handler then no longer fires for its key. -/
theorem couch_off_removes_other_subscriptions :
    subOff ⟨"b", .raw 2, 1⟩ [⟨"a", .raw 1, 0⟩, ⟨"b", .raw 2, 1⟩, ⟨"c", .raw 3, 2⟩]
      = [⟨"a", .raw 1, 0⟩] ∧
    (⟨"c", .raw 3, 2⟩ : DataSubscription) ∉
      subOff ⟨"b", .raw 2, 1⟩ [⟨"a", .raw 1, 0⟩, ⟨"b", .raw 2, 1⟩, ⟨"c", .raw 3, 2⟩] ∧
    changeFanout (subOff ⟨"b", .raw 2, 1⟩
      [⟨"a", .raw 1, 0⟩, ⟨"b", .raw 2, 1⟩, ⟨"c", .raw 3, 2⟩]) "c" = [] := by
  decide

/-! ## Module event registration (`Module.registerEvent` / `unregisterEvent`)

The event state gathers the three event sources visible to a module:
the Discord client emitter (`this.bot`), the framework bus
(`this.az.events`), the data-store fan-out table (`this.az.data`), and the
module's own `events` binding list. Emitter listener tables are lists of
(event name, attached function) pairs, in attachment order. -/

/-- `ModuleEventType` from `src/module.ts`. -/
inductive ModuleEventType where
  | azarasi
  | discord
  | dataStore
deriving DecidableEq, Repr

/-- `ModuleEvent` from `src/module.ts`: one entry of the module's `events`
list. Optional fields are the ones the corresponding `registerEvent`
branch leaves unset. -/
structure ModuleEvent where
  name : String
  evName : Option String
  handler : Option AttachedHandler
  sub : Option DataSubscription
  originalHandler : Nat
  type : ModuleEventType
deriving DecidableEq, Repr

/-- The state touched by `registerEvent`/`unregisterEvent`. -/
structure EventState where
  /-- Listener table of the Discord client emitter (`this.bot`). -/
  botListeners : List (String × AttachedHandler)
  /-- Listener table of the framework bus (`this.az.events`). -/
  azListeners : List (String × AttachedHandler)
  /-- Data-store subscription fan-out table (`this.az.data`). -/
  subscriptions : List DataSubscription
  /-- The module's `events` binding list. -/
  events : List ModuleEvent
  /-- Fresh identity for the next `DataSubscription` object. -/
  nextSid : Nat
deriving DecidableEq, Repr

/-- The empty initial state. -/
def EventState.initial : EventState := ⟨[], [], [], [], 0⟩

/-- Splits a character list on `.` separators (JS `String.prototype.split`
semantics: `"a.b"` gives two parts, the empty string gives one empty
part). -/
def splitCharsOnDot : List Char → List (List Char)
  | [] => [[]]
  | c :: cs =>
    let rest := splitCharsOnDot cs
    if c = '.' then [] :: rest
    else
      match rest with
      | [] => [[c]]
      | r :: rs => (c :: r) :: rs

/-- JS `name.split('.')`. -/
def splitOnDot (s : String) : List String :=
  (splitCharsOnDot s.data).map (fun cs => String.mk cs)

/-- Rejoins name parts with `.` (the `nameParts.slice(1).join('.')`
step). -/
def joinDot : List String → String
  | [] => ""
  | [x] => x
  | x :: y :: xs => x ++ "." ++ joinDot (y :: xs)

/-- `Module.registerEvent(name, handler)`: splits `name` on `.`; the
`discord`/`client`/`bot` head attaches the guard wrapper to the client
emitter; the `db`/`ds`/`datastore`/`database` head subscribes the wrapper
on the data store; the default branch attaches the ORIGINAL handler to the
framework bus (`this.az.events.on(name, handler)`) while recording the
wrapper in the pushed `ModuleEvent`. -/
def registerEvent (s : EventState) (name : String) (handler : Nat) : EventState :=
  let parts := splitOnDot name
  let head := parts.headD ""
  if head = "discord" ∨ head = "client" ∨ head = "bot" then
    let evName := joinDot (parts.drop 1)
    { s with
      botListeners := s.botListeners ++ [(evName, .wrapped handler)]
      events := s.events ++
        [⟨name, some evName, some (.wrapped handler), none, handler, .discord⟩] }
  else if head = "db" ∨ head = "ds" ∨ head = "datastore" ∨ head = "database" then
    let channelName := joinDot (parts.drop 1)
    let sub : DataSubscription := ⟨channelName, .wrapped handler, s.nextSid⟩
    { s with
      subscriptions := s.subscriptions ++ [sub]
      events := s.events ++ [⟨name, none, none, some sub, handler, .dataStore⟩]
      nextSid := s.nextSid + 1 }
  else
    { s with
      azListeners := s.azListeners ++ [(name, .raw handler)]
      events := s.events ++ [⟨name, none, some (.wrapped handler), none, handler, .azarasi⟩] }

/-- Removes the first occurrence of `a` from `l` (JS
`arr.splice(arr.indexOf(a), 1)` for an element present in the array). -/
def removeFirst {α : Type} [DecidableEq α] (l : List α) (a : α) : List α :=
  match l with
  | [] => []
  | x :: xs => if x = a then xs else x :: removeFirst xs a

/-- Node `EventEmitter.removeListener(name, fn)`: removes at most one
matching listener, the most recently added one. -/
def emitterRemoveListener (ls : List (String × AttachedHandler)) (name : String)
    (fn : AttachedHandler) : List (String × AttachedHandler) :=
  (removeFirst ls.reverse (name, fn)).reverse

/-- The `unregisterEvent` match predicate:
`e.name === name && (e.originalHandler === handler || handler == null)`. -/
def matchesUnreg (name : String) (h : Option Nat) (e : ModuleEvent) : Bool :=
  e.name == name && (some e.originalHandler == h || h == none)

/-- The source-removal part of one `unregisterEvent` iteration: Discord →
remove the recorded handler from the client emitter; DataStore → invoke
the subscription's `off`; Azarasi → remove the recorded handler from the
framework bus. Recorded fields are always set for the matching branch;
`getD` defaults are never reached on states built by `registerEvent`. -/
def unregSource (s : EventState) (e : ModuleEvent) : EventState :=
  match e.type with
  | .discord =>
    { s with botListeners :=
        emitterRemoveListener s.botListeners (e.evName.getD "") (e.handler.getD (.raw 0)) }
  | .dataStore =>
    { s with subscriptions :=
        match e.sub with
        | some sub => subOff sub s.subscriptions
        | none => s.subscriptions }
  | .azarasi =>
    { s with azListeners :=
        emitterRemoveListener s.azListeners e.name (e.handler.getD (.raw 0)) }

/-- One iteration of `unregisterEvent`'s `forEach`: undo the source
attachment, then `this.events.splice(this.events.indexOf(e), 1)`. -/
def unregOne (s : EventState) (e : ModuleEvent) : EventState :=
  let s1 := unregSource s e
  { s1 with events := removeFirst s1.events e }

/-- `Module.unregisterEvent(name, handler?)`: filters the matching entries
of the binding list, then processes each in order. -/
def unregisterEvent (s : EventState) (name : String) (h : Option Nat) : EventState :=
  (s.events.filter (matchesUnreg name h)).foldl unregOne s

/-! ## Event delivery and the guild guard -/

/-- An event payload, as inspected by the guard wrapper: it may itself be a
guild object, and it may carry a `.guild` field. Guilds are identified by
`Nat` ids. -/
structure Payload where
  isGuild : Option Nat
  guildField : Option Nat
deriving DecidableEq, Repr

/-- The guild the wrapper resolves from a payload: the `.guild` field check
runs second and overwrites the payload-is-guild check. -/
def payloadGuild (p : Payload) : Option Nat :=
  match p.guildField with
  | some g => some g
  | none => p.isGuild

/-- Whether an attached function object, when invoked with payload `p`,
calls through to the user handler. The raw handler always runs; the guard
wrapper returns early when the resolved guild is one the module is
disabled for. -/
def attachedCallsThrough (disabledGuilds : List Nat) (fn : AttachedHandler)
    (p : Payload) : Bool :=
  match fn with
  | .raw _ => true
  | .wrapped _ =>
    match payloadGuild p with
    | some g => !(disabledGuilds.contains g)
    | none => true

/-- User handlers invoked when the framework bus emits `name` with payload
`p`: every listener registered under `name` fires in order, and the user
handler runs when the attached function calls through. -/
def emitAz (s : EventState) (disabledGuilds : List Nat) (name : String)
    (p : Payload) : List Nat :=
  (s.azListeners.filter (fun l => l.1 == name)).filterMap (fun l =>
    if attachedCallsThrough disabledGuilds l.2 p then some l.2.userId else none)

/-! ## Claims C2 and C3: event registration in the internal namespace -/

/-- Claim C2: `registerEvent(name, h)` then `unregisterEvent(name, h)`
guarantees `h` never fires again, in all three namespaces. REFUTED in the
internal (framework-bus) namespace: `registerEvent`'s default branch
attaches the original handler (`az.events.on(name, handler)`) but records
the wrapper, and `unregisterEvent` removes the recorded wrapper — which
was never attached — so the original handler remains on the bus and still
fires, even though the binding list is now empty. -/
theorem unregister_internal_handler_still_fires :
    (unregisterEvent (registerEvent EventState.initial "customEvent" 7)
        "customEvent" (some 7)).events = [] ∧
    (unregisterEvent (registerEvent EventState.initial "customEvent" 7)
        "customEvent" (some 7)).azListeners = [("customEvent", .raw 7)] ∧
    emitAz (unregisterEvent (registerEvent EventState.initial "customEvent" 7)
        "customEvent" (some 7)) [] "customEvent" ⟨none, none⟩ = [7] := by
  decide

/-- Claim C3: in every namespace the function attached to the event source
is the guard wrapper, so a disabled module's handler is skipped. REFUTED
in the internal (framework-bus) namespace: the default branch of
`registerEvent` attaches the raw handler, so even when the payload carries
a guild (id 10) for which the module is disabled, the user handler still
runs. -/
theorem internal_namespace_attaches_raw_handler :
    (registerEvent EventState.initial "guildEvent" 3).azListeners
      = [("guildEvent", .raw 3)] ∧
    emitAz (registerEvent EventState.initial "guildEvent" 3) [10]
      "guildEvent" ⟨none, some 10⟩ = [3] := by
  decide

/-! ## Claim C8: idempotence of `unregisterEvent` -/

lemma unregSource_events (s : EventState) (e : ModuleEvent) :
    (unregSource s e).events = s.events := by
  rcases e with ⟨n, ev, hd, sb, oh, ty⟩
  cases ty <;> cases sb <;> rfl

lemma unregOne_events (s : EventState) (e : ModuleEvent) :
    (unregOne s e).events = removeFirst s.events e := by
  show removeFirst (unregSource s e).events e = removeFirst s.events e
  rw [unregSource_events]

lemma foldl_unregOne_events (ms : List ModuleEvent) (s : EventState) :
    (ms.foldl unregOne s).events = ms.foldl removeFirst s.events := by
  induction ms generalizing s with
  | nil => rfl
  | cons e ms ih =>
    show ((ms.foldl unregOne (unregOne s e))).events
        = ms.foldl removeFirst (removeFirst s.events e)
    rw [ih, unregOne_events]

lemma removeFirst_cons_ne {α : Type} [DecidableEq α] (x a : α) (xs : List α)
    (h : x ≠ a) : removeFirst (x :: xs) a = x :: removeFirst xs a := by
  simp [removeFirst, h]

lemma foldl_removeFirst_notmem {α : Type} [DecidableEq α] (x : α) (xs ms : List α)
    (h : ∀ m ∈ ms, m ≠ x) :
    ms.foldl removeFirst (x :: xs) = x :: ms.foldl removeFirst xs := by
  induction ms generalizing xs with
  | nil => rfl
  | cons m ms ih =>
    have hxm : x ≠ m := fun he => (h m (List.mem_cons_self m ms)) he.symm
    show ms.foldl removeFirst (removeFirst (x :: xs) m)
        = x :: ms.foldl removeFirst (removeFirst xs m)
    rw [removeFirst_cons_ne x m xs hxm]
    exact ih (removeFirst xs m) (fun m hm => h m (List.mem_cons_of_mem _ hm))

lemma foldl_removeFirst_filter {α : Type} [DecidableEq α] (p : α → Bool) (l : List α) :
    (l.filter p).foldl removeFirst l = l.filter (fun x => !p x) := by
  induction l with
  | nil => rfl
  | cons x xs ih =>
    by_cases hp : p x
    · rw [List.filter_cons_of_pos hp]
      show (List.filter p xs).foldl removeFirst (removeFirst (x :: xs) x)
          = List.filter (fun y => !p y) (x :: xs)
      have hx : removeFirst (x :: xs) x = xs := by simp [removeFirst]
      rw [hx, ih, List.filter_cons_of_neg (by simp [hp])]
    · rw [List.filter_cons_of_neg (by simpa using hp)]
      have hms : ∀ m ∈ List.filter p xs, m ≠ x := by
        intro m hm he
        exact hp (he ▸ (List.of_mem_filter hm))
      rw [foldl_removeFirst_notmem x xs _ hms, ih,
        List.filter_cons_of_pos (by simpa using hp)]

lemma filter_not_filter {α : Type} (p : α → Bool) (l : List α) :
    (l.filter (fun x => !p x)).filter p = [] := by
  induction l with
  | nil => rfl
  | cons x xs ih =>
    by_cases hp : p x
    · rw [List.filter_cons_of_neg (by simp [hp])]
      exact ih
    · rw [List.filter_cons_of_pos (by simpa using hp),
        List.filter_cons_of_neg (by simpa using hp)]
      exact ih

lemma unregisterEvent_events (s : EventState) (name : String) (h : Option Nat) :
    (unregisterEvent s name h).events
      = s.events.filter (fun e => !matchesUnreg name h e) := by
  show ((s.events.filter (matchesUnreg name h)).foldl unregOne s).events
      = s.events.filter (fun e => !matchesUnreg name h e)
  rw [foldl_unregOne_events, foldl_removeFirst_filter]

lemma unregisterEvent_no_match (s : EventState) (name : String) (h : Option Nat)
    (hm : s.events.filter (matchesUnreg name h) = []) :
    unregisterEvent s name h = s := by
  show (s.events.filter (matchesUnreg name h)).foldl unregOne s = s
  rw [hm]
  rfl

/-- Claim C8: `unregisterEvent` is idempotent — a second call with the same
arguments finds no matching entry in the binding list, so it performs no
removal at all (on the binding list or on any event source) and cannot
throw. Proved as full-state idempotence. -/
theorem unregisterEvent_idempotent (s : EventState) (name : String) (h : Option Nat) :
    unregisterEvent (unregisterEvent s name h) name h = unregisterEvent s name h := by
  apply unregisterEvent_no_match
  rw [unregisterEvent_events]
  exact filter_not_filter (matchesUnreg name h) s.events

/-! ## CouchDB document model (`CouchDataStore.get` / `set` / `del`)

`DataStructure` from `src/module.ts` is `{ _id, _rev, val }`. The backing
database is a list of documents plus a counter for server-generated
document ids (a CouchDB `POST` of a document without an `_id` stores it
under a fresh server-chosen id). Values are `null` or a number. -/

/-- A JS value stored under `val`: `null` or a number. -/
inductive JsVal where
  | vnull
  | vnum (n : Nat)
deriving DecidableEq, Repr

/-- A stored CouchDB document: `_id`, `_rev` (modelled as a revision
counter) and `val`. -/
structure Doc where
  docId : String
  docRev : Nat
  val : JsVal
deriving DecidableEq, Repr

/-- The CouchDB database state. -/
structure CouchDb where
  docs : List Doc
  /-- Counter for server-generated document ids. -/
  nextGen : Nat
deriving DecidableEq, Repr

/-- The document stored under `key`, if any. -/
def dbFind (db : CouchDb) (key : String) : Option Doc :=
  db.docs.find? (fun d => d.docId == key)

/-- A server-generated document id (distinct from any `gen-`-free user
key). -/
def genId (n : Nat) : String := "gen-" ++ toString n

/-- `nano`'s `db.get(key)`: resolves with the document or rejects (404)
when it is absent. -/
def nanoGet (db : CouchDb) (key : String) : Except String Doc :=
  match dbFind db key with
  | some d => Except.ok d
  | none => Except.error "not_found"

/-- The object shape flowing through `get(key, raw)` / `insert`: `_id` and
`_rev` are present only when the object came from a stored document
(`{ val: null }` has neither). -/
structure RawDoc where
  rawId : Option String
  rawRev : Option Nat
  val : JsVal
deriving DecidableEq, Repr

/-- `CouchDataStore.get(key)` (raw = false): `try { return (await
db.get(key)).val } catch { return null }`. -/
def couchGet (db : CouchDb) (key : String) : JsVal :=
  match nanoGet db key with
  | Except.ok d => d.val
  | Except.error _ => JsVal.vnull

/-- `CouchDataStore.get(key, true)` (raw mode): the full document on
success, `{ val: null }` on any error. -/
def couchGetRaw (db : CouchDb) (key : String) : RawDoc :=
  match nanoGet db key with
  | Except.ok d => ⟨some d.docId, some d.docRev, d.val⟩
  | Except.error _ => ⟨none, none, JsVal.vnull⟩

/-- `nano`'s `db.insert(doc)` with CouchDB semantics: with an `_id` and the
current `_rev`, updates the document in place (bumping the revision); with
an `_id` and no `_rev`, creates the document under that id when absent;
with a stale or missing `_rev` against an existing document, rejects with
a conflict; WITHOUT an `_id`, creates a new document under a
server-generated id. -/
def couchInsert (db : CouchDb) (d : RawDoc) : Except String CouchDb :=
  match d.rawId with
  | some k =>
    match dbFind db k with
    | some old =>
      if d.rawRev = some old.docRev then
        Except.ok { db with
          docs := db.docs.map (fun x => if x.docId == k then ⟨k, old.docRev + 1, d.val⟩ else x) }
      else Except.error "conflict"
    | none =>
      if d.rawRev = none then
        Except.ok { db with docs := db.docs ++ [⟨k, 1, d.val⟩] }
      else Except.error "conflict"
  | none =>
    Except.ok { db with
      docs := db.docs ++ [⟨genId db.nextGen, 1, d.val⟩]
      nextGen := db.nextGen + 1 }

/-- `CouchDataStore.set(key, val)`: reads the raw document (`{ val: null }`
when absent, so WITHOUT an `_id`), spreads the new `val` over it and
inserts the result; resolves with `'OK'`. -/
def couchSet (db : CouchDb) (key : String) (v : JsVal) : Except String (String × CouchDb) :=
  let orig := couchGetRaw db key
  match couchInsert db { orig with val := v } with
  | Except.ok db2 => Except.ok ("OK", db2)
  | Except.error e => Except.error e

/-- `nano`'s `db.destroy(key, rev)`: deletes the document when the revision
matches; rejects when the document is absent or the revision argument is
missing or stale. -/
def couchDestroy (db : CouchDb) (key : String) (rev : Option Nat) : Except String CouchDb :=
  match dbFind db key, rev with
  | some old, some r =>
    if r = old.docRev then
      Except.ok { db with docs := db.docs.filter (fun x => !(x.docId == key)) }
    else Except.error "conflict"
  | some _, none => Except.error "bad_request"
  | none, _ => Except.error "not_found"

/-- `CouchDataStore.del(key)`: reads the raw document and destroys the key
with its `_rev`; resolves with `'OK'`. -/
def couchDel (db : CouchDb) (key : String) : Except String (String × CouchDb) :=
  let orig := couchGetRaw db key
  match couchDestroy db key orig.rawRev with
  | Except.ok db2 => Except.ok ("OK", db2)
  | Except.error e => Except.error e

/-! ## Claim C4: data store round-trip -/

/-- Claim C4: `await set(k, v)` then `get(k)` returns `v`, including when
`k` had no stored document. REFUTED for a fresh key: `get(k, true)` on a
missing document returns `{ val: null }` with no `_id`, so `set`'s
`insert({ ...orig, val })` stores the value under a server-generated id
(`gen-0` here) instead of under `k`; the subsequent `get(k)` returns
`null`, not `v`. (`del(k)` then `get(k)` does return null for stored
keys; the round-trip claim fails on its fresh-key half.) -/
theorem couch_set_then_get_loses_fresh_key :
    couchSet ⟨[], 0⟩ "k" (JsVal.vnum 5)
      = Except.ok ("OK", (⟨[⟨genId 0, 1, JsVal.vnum 5⟩], 1⟩ : CouchDb)) ∧
    couchGet ⟨[⟨genId 0, 1, JsVal.vnum 5⟩], 1⟩ "k" = JsVal.vnull :=
  ⟨rfl, by decide⟩

/-! ## Claim C7: get on a missing key -/

/-- Claim C7: for a key with no stored document, `get` returns `null`
(`{ val: null }` in raw mode) and never rejects: the `try`/`catch` around
the backend fetch converts the 404 rejection into a normal return. -/
theorem couch_get_missing_returns_null (db : CouchDb) (key : String)
    (h : dbFind db key = none) :
    couchGet db key = JsVal.vnull ∧
    couchGetRaw db key = ⟨none, none, JsVal.vnull⟩ := by
  constructor <;> simp [couchGet, couchGetRaw, nanoGet, h]

/-- Witness for C7 at a concrete store and key. -/
theorem couch_get_missing_returns_null_witness :
    dbFind (⟨[⟨"other", 1, JsVal.vnum 3⟩], 0⟩ : CouchDb) "k" = none ∧
    (couchGet ⟨[⟨"other", 1, JsVal.vnum 3⟩], 0⟩ "k" = JsVal.vnull ∧
     couchGetRaw ⟨[⟨"other", 1, JsVal.vnum 3⟩], 0⟩ "k" = ⟨none, none, JsVal.vnull⟩) :=
  ⟨by decide, couch_get_missing_returns_null ⟨[⟨"other", 1, JsVal.vnum 3⟩], 0⟩ "k" (by decide)⟩

/-! ## Claim C5: the `ensureReady` gate

Connection-lifecycle state of a `CouchDataStore` instance: the public
`connected`/`ready` flags, whether the change feed was set up and
followed, and how many times `'connected'` was emitted on the private
`_emitter` (the event `ensureReady()` waits for when `ready` is false). -/

/-- Connection-lifecycle state of a `CouchDataStore`. -/
structure CouchConn where
  connected : Bool
  ready : Bool
  /-- Whether `connect()` attached the change listener to the feed. -/
  changeListenerAttached : Bool
  /-- Whether `feed.follow()` was called. -/
  feedFollowing : Bool
  /-- Times `'connected'` was emitted on the private `_emitter`. -/
  connectedEmitCount : Nat
deriving DecidableEq, Repr

/-- The state after the constructor: both flags false, no feed, no
emissions. -/
def couchConnInit : CouchConn := ⟨false, false, false, false, 0⟩

/-- `CouchDataStore.connect()`: checks the database (no state change),
attaches the change listener and calls `feed.follow()`. It assigns
neither `connected` nor `ready`, and emits nothing on `_emitter`. -/
def couchConnect (s : CouchConn) : CouchConn :=
  { s with changeListenerAttached := true, feedFollowing := true }

/-- `ensureReady()` resolves immediately iff `ready` is set; otherwise it
waits for one `'connected'` emission on the private emitter. An operation
that awaited `ensureReady()` in state `s0` has completed by a later state
`s1` iff it resolved immediately or a `'connected'` emission happened in
between. -/
def opCompleted (s0 s1 : CouchConn) : Bool :=
  s0.ready || decide (s0.connectedEmitCount < s1.connectedEmitCount)

/-- Claim C5: a `get`/`set`/`subscribe` issued before the backend is ready
is deferred by `ensureReady` and completes once the store becomes
connected. REFUTED: `connect()` runs to completion without ever setting
`ready`/`connected` or emitting `'connected'` on the private emitter
`ensureReady` waits on (no code in the class does), so an operation issued
on the fresh store is still pending after `connect()` finishes — it never
completes. -/
theorem ensure_ready_never_released :
    couchConnect couchConnInit = ⟨false, false, true, true, 0⟩ ∧
    opCompleted couchConnInit (couchConnect couchConnInit) = false := by
  decide

/-! ## Claim C9: `Module.registerCommand` error handling -/

/-- A registered command: its resolved name and handler id. -/
structure Command where
  name : String
  handler : Nat
deriving DecidableEq, Repr

/-- JS `Map.prototype.set`: overwrite in place when the key exists,
append otherwise. -/
def mapSet (m : List (String × Command)) (k : String) (v : Command) :
    List (String × Command) :=
  if m.any (fun e => e.1 == k) then
    m.map (fun e => if e.1 == k then (k, v) else e)
  else m ++ [(k, v)]

/-- Character-wise lower-casing (structural, so concrete instances
evaluate in proofs). -/
def lowerStr (s : String) : String := String.mk (s.data.map Char.toLower)

/-- Modelled from the spec: `CommandRegistry.register` (`src/commands` is
not among the sources) — "fails with `DuplicateTrigger` if an equal
literal name ... already exists. Literal names are case-insensitive";
otherwise the command is created and held by the registry. -/
def commandManagerRegister (registry : List Command) (name : String) (handler : Nat) :
    Except String (Command × List Command) :=
  if registry.any (fun c => lowerStr c.name == lowerStr name) then
    Except.error "DuplicateTrigger"
  else
    Except.ok (⟨name, handler⟩, registry ++ [⟨name, handler⟩])

/-- The state touched by `Module.registerCommand`: the global registry
(`az.commands`), the module's own `commands` map, and the `az.logError`
sink. -/
structure CmdState where
  registry : List Command
  moduleCommands : List (String × Command)
  errorLog : List String
deriving DecidableEq, Repr

/-- `Module.registerCommand`: runs the registry registration inside a
`try`; on success tags the command with the module, records it in the
module's `commands` map and returns it; on an exception logs the error
(`az.logError`) and returns `false` (modelled as `none`), leaving both the
registry and the module map untouched. -/
def registerCommand (s : CmdState) (name : String) (handler : Nat) :
    Option Command × CmdState :=
  match commandManagerRegister s.registry name handler with
  | Except.ok (cmd, reg2) =>
    (some cmd, { s with
      registry := reg2
      moduleCommands := mapSet s.moduleCommands cmd.name cmd })
  | Except.error e =>
    (none, { s with errorLog := s.errorLog ++ [e] })

/-- Claim C9: when the underlying registration throws (e.g. a duplicate
name collision), `registerCommand` catches the error, logs it, returns
`false`, and leaves the module's commands map (and the registry)
unchanged. -/
theorem registerCommand_catches_error (s : CmdState) (name : String)
    (handler : Nat) (e : String)
    (h : commandManagerRegister s.registry name handler = Except.error e) :
    (registerCommand s name handler).1 = none ∧
    (registerCommand s name handler).2.moduleCommands = s.moduleCommands ∧
    (registerCommand s name handler).2.registry = s.registry ∧
    (registerCommand s name handler).2.errorLog = s.errorLog ++ [e] := by
  refine ⟨?_, ?_, ?_, ?_⟩ <;> simp [registerCommand, h]

/-- Witness for C9: registering `ping` a second time collides and is
rejected without touching the module map. -/
theorem registerCommand_catches_error_witness :
    commandManagerRegister [⟨"ping", 0⟩] "ping" 1 = Except.error "DuplicateTrigger" ∧
    ((registerCommand ⟨[⟨"ping", 0⟩], [("ping", ⟨"ping", 0⟩)], []⟩ "ping" 1).1 = none ∧
     (registerCommand ⟨[⟨"ping", 0⟩], [("ping", ⟨"ping", 0⟩)], []⟩ "ping" 1).2.moduleCommands
       = [("ping", ⟨"ping", 0⟩)] ∧
     (registerCommand ⟨[⟨"ping", 0⟩], [("ping", ⟨"ping", 0⟩)], []⟩ "ping" 1).2.registry
       = [⟨"ping", 0⟩] ∧
     (registerCommand ⟨[⟨"ping", 0⟩], [("ping", ⟨"ping", 0⟩)], []⟩ "ping" 1).2.errorLog
       = [] ++ ["DuplicateTrigger"]) :=
  ⟨by rfl, registerCommand_catches_error ⟨[⟨"ping", 0⟩], [("ping", ⟨"ping", 0⟩)], []⟩
    "ping" 1 "DuplicateTrigger" (by rfl)⟩

/-! ## Claim C10: blacklist short-circuit in `Azarasi.processMessage` -/

/-- An inbound message, as far as the blacklist check reads it. -/
structure Message where
  authorId : String
deriving DecidableEq, Repr

/-- The `properties` object: `blacklist` is optional (`none` models the
field being unset, a falsy value skipping the check). -/
structure BotProperties where
  blacklist : Option (List String)
deriving DecidableEq, Repr

/-- What `Azarasi.processMessage` did with a message. -/
inductive ProcessOutcome where
  /-- Returned early: `commands.processMessage` was not called. -/
  | ignored
  /-- Fell through to `commands.processMessage(msg)`. -/
  | dispatched
deriving DecidableEq, Repr

/-- `Azarasi.processMessage(msg)`: returns early when
`properties.blacklist` is set and `blacklist.indexOf(msg.author.id) >= 0`;
otherwise hands the message to command dispatch. -/
def processMessage (props : BotProperties) (msg : Message) : ProcessOutcome :=
  match props.blacklist with
  | some bl =>
    if jsIndexOfFrom bl msg.authorId 0 ≥ 0 then ProcessOutcome.ignored
    else ProcessOutcome.dispatched
  | none => ProcessOutcome.dispatched

lemma jsIndexOfAux_nonneg_of_mem {α : Type} [DecidableEq α] (l : List α) (a : α)
    (i : Nat) (h : a ∈ l) : 0 ≤ jsIndexOfAux l a i := by
  induction l generalizing i with
  | nil => cases h
  | cons x xs ih =>
    by_cases hx : x = a
    · simp [jsIndexOfAux, hx]
    · have hmem : a ∈ xs := by
        rcases List.mem_cons.mp h with h1 | h2
        · exact absurd h1.symm hx
        · exact h2
      simpa [jsIndexOfAux, hx] using ih (i + 1) hmem

lemma jsIndexOfFrom_zero_nonneg_of_mem {α : Type} [DecidableEq α] (l : List α)
    (a : α) (h : a ∈ l) : 0 ≤ jsIndexOfFrom l a 0 := by
  unfold jsIndexOfFrom
  rw [List.drop_zero]
  exact jsIndexOfAux_nonneg_of_mem l a 0 h

/-- Claim C10: a message whose author id is in the configured blacklist is
dropped before command dispatch — `commands.processMessage` is never
reached for it. -/
theorem blacklisted_author_never_dispatched (props : BotProperties) (msg : Message)
    (bl : List String) (hbl : props.blacklist = some bl)
    (hmem : msg.authorId ∈ bl) :
    processMessage props msg = ProcessOutcome.ignored := by
  unfold processMessage
  rw [hbl]
  have hge : jsIndexOfFrom bl msg.authorId 0 ≥ 0 :=
    jsIndexOfFrom_zero_nonneg_of_mem bl msg.authorId hmem
  simp [hge]

/-- Witness for C10 at a concrete blacklist and author. -/
theorem blacklisted_author_never_dispatched_witness :
    (⟨some ["u1", "u2"]⟩ : BotProperties).blacklist = some ["u1", "u2"] ∧
    ("u2" : String) ∈ ["u1", "u2"] ∧
    processMessage ⟨some ["u1", "u2"]⟩ ⟨"u2"⟩ = ProcessOutcome.ignored :=
  ⟨rfl, by decide,
    blacklisted_author_never_dispatched ⟨some ["u1", "u2"]⟩ ⟨"u2"⟩ ["u1", "u2"]
      rfl (by decide)⟩

end Azarasi
